import Mathlib

/-!
Shallow embedding of the banner-generation pipeline in `app.py`
(landing-page-banner-automation).  The pipeline loads an event scheme,
draws a spacer line, lays product images out on a grid, wraps and draws a
caption, and saves the canvas as a WEBP file with a derived name.  All
numeric code is embedded over `Nat`/`Int`/`ℚ` with explicit division
semantics matching Python (floor division on non-negative operands), and
the filesystem / image library are abstracted as explicit parameters of
the run environment.
-/

namespace LandingBanner

/-! ## Data model: event schemes (events.json) -/

/-- One entry of the event table (`events.json`): a full display name and
two optional color fields.  The color fields are read with `.get` and a
default in the source, hence `Option`. -/
structure EventScheme where
  full_name : String
  spacer_color : Option String
  caption_color : Option String
deriving DecidableEq, Repr

/-- Source line 68: `caption_color = events["events"][event_code].get("spacer_color", "gray")`.
The local variable named `caption_color` is filled from the `spacer_color`
JSON field, with default `"gray"`. -/
def caption_color (e : EventScheme) : String := e.spacer_color.getD "gray"

/-- Source line 69: `spacer_color = events["events"][event_code].get("caption_color", "black")`.
The local variable named `spacer_color` is filled from the `caption_color`
JSON field, with default `"black"`. -/
def spacer_color (e : EventScheme) : String := e.caption_color.getD "black"

/-- Python `str.lower()`, character by character. -/
def pyLower (s : String) : String := String.mk (s.data.map Char.toLower)

/-- Replacement pass of Python `str.replace(old, new)` for a
single-character pattern, the only form the source uses. -/
def pyReplaceChar (pat : Char) (repl : List Char) : List Char → List Char
  | [] => []
  | c :: cs =>
    if c = pat then repl ++ pyReplaceChar pat repl cs
    else c :: pyReplaceChar pat repl cs

/-- Python `str.replace(old, new)` for a single-character pattern. -/
def pyReplace (s : String) (pat : Char) (repl : String) : String :=
  String.mk (pyReplaceChar pat repl.data s.data)

/-- Source line 70: the event full name lowercased, apostrophes removed,
spaces replaced by hyphens. -/
def event_full_name (e : EventScheme) : String :=
  pyReplace (pyReplace (pyLower e.full_name) '\x27' "") ' ' "-"

/-! ## Grid layout (source lines 88-94) -/

/-- Source line 90: `cols = 2 if item_count > 1 else 1`. -/
def cols (item_count : Nat) : Nat := if 1 < item_count then 2 else 1

/-- Source line 91: `rows = (item_count + cols - 1) // cols`. -/
def rows (item_count : Nat) : Nat :=
  (item_count + cols item_count - 1) / cols item_count

/-- Source line 93: `item_width = canvas.width // cols`. -/
def item_width (canvasW item_count : Nat) : Nat := canvasW / cols item_count

/-- Source line 94: `item_height = int((canvas.height - 150) / rows)`; Python
divides as floats and `int` truncates toward zero, which on integers is
truncating division.  For zero `rows` Python raises `ZeroDivisionError`
while `Int.div` totalises the value to `0`; theorems about this definition
track the `rows = 0` condition separately. -/
def item_height (canvasH item_count : Nat) : Int :=
  Int.tdiv ((canvasH : Int) - 150) (rows item_count : Int)

/-- Modelled from the spec: the estimated column count `sqrt(N * W / H)`
of the grid-layout description.  No such computation exists in
`src/app.py`; this definition follows the words of the spec so the code
can be compared against it. -/
def spec_cols_estimate (n W H : Nat) : Nat := Nat.sqrt (n * W / H)

/-- Modelled from the spec: the candidate-column window
`estimate - 2 ... estimate + 2`, floored at 1, from which the spec says
the chosen column count is selected.  No such computation exists in
`src/app.py`. -/
def spec_cols_window (n W H : Nat) : List Nat :=
  (List.range 5).map (fun i => Nat.max 1 (spec_cols_estimate n W H - 2 + i))

/-! ## Cell placement offsets (source lines 114-118) -/

/-- Source line 117, offset part: `(item_width - img.width + 10) // 2`.
Python floor division on `Int`; `Int` division in this file is Euclidean
division, which agrees with Python floor division for the positive
divisor 2. -/
def x_offset (item_width img_width : Int) : Int := (item_width - img_width + 10) / 2

/-- Source line 118, offset part: `(item_height - img.height + 20) // 2`. -/
def y_offset (item_height img_height : Int) : Int := (item_height - img_height + 20) / 2

/-- Source line 117: `x = col * item_width + (item_width - img.width + 10) // 2`. -/
def x_position (col item_width img_width : Int) : Int :=
  col * item_width + x_offset item_width img_width

/-- Source line 118: `y = row * item_height + (item_height - img.height + 20) // 2`. -/
def y_position (row item_height img_height : Int) : Int :=
  row * item_height + y_offset item_height img_height

/-! ## Image resizing (source line 109) -/

/-- Modelled from the spec: the resize performed by the external image
library for the geometry string `"WxH>"` (source line 109,
`img.transform(resize=f"...>")`) is not code of this repository.  Per the
spec it fits the image inside the cell preserving aspect ratio and only
shrinks, never enlarges: if the image already fits it is left unchanged,
otherwise both dimensions are scaled by the largest factor that fits the
cell.  Dimensions are kept as exact rationals. -/
def transform_resize (W H w h : ℚ) : ℚ × ℚ :=
  if w ≤ W ∧ h ≤ H then (w, h)
  else
    let s := min (W / w) (H / h)
    (w * s, h * s)

/-! ## Caption wrapping (source lines 133-145)

Python string primitives used by the wrap loop, embedded over the
character list underlying `String`:
`str.split()` (split on whitespace runs, dropping empty pieces) and
`str.strip()` (drop leading and trailing whitespace). -/

/-- Accumulator pass of `str.split()`: walk the characters, collecting the
current word reversed in `cur`; whitespace closes the word. -/
def pySplitAux : List Char → List Char → List (List Char)
  | [], cur => if cur.isEmpty then [] else [cur.reverse]
  | c :: cs, cur =>
    if c.isWhitespace then
      if cur.isEmpty then pySplitAux cs [] else cur.reverse :: pySplitAux cs []
    else pySplitAux cs (c :: cur)

/-- Python `caption.split()` (source line 133): the whitespace-separated
words of a string, never containing empty strings. -/
def pySplit (s : String) : List String :=
  (pySplitAux s.data []).map String.mk

/-- Python `str.strip()`: drop leading and trailing whitespace. -/
def pyStrip (s : String) : String :=
  String.mk (((s.data.dropWhile Char.isWhitespace).reverse.dropWhile
      Char.isWhitespace).reverse)

/-- The wrap loop of source lines 137-145: fold over the remaining words,
carrying the closed lines and the line under construction.  Line 138
builds the candidate line (`test_line`, written out inline below) by
joining and stripping; line 139 compares its measured width against the
maximum; lines 142-143 close the current line and restart from the
overflowing word; lines 144-145 flush a non-empty final line. -/
def wrapGo (textWidth : String → Int) (max_caption_width : Int) :
    List String → List String → String → List String
  | [], lines, current_line =>
    if current_line = "" then lines else lines ++ [current_line]
  | word :: ws, lines, current_line =>
    if textWidth (pyStrip (current_line ++ " " ++ word)) ≤ max_caption_width then
      wrapGo textWidth max_caption_width ws lines (pyStrip (current_line ++ " " ++ word))
    else
      wrapGo textWidth max_caption_width ws (lines ++ [current_line]) word

/-- The caption wrap of source lines 133-145: split the caption into words
and run the greedy loop starting from no closed lines and an empty
current line. -/
def wrapLines (textWidth : String → Int) (max_caption_width : Int)
    (caption : String) : List String :=
  wrapGo textWidth max_caption_width (pySplit caption) [] ""

/-- A width-measuring function is monotone when measuring an extension of
a string never yields a smaller width. -/
def WidthMonotone (textWidth : String → Int) : Prop :=
  ∀ s t : String, textWidth s ≤ textWidth (s ++ t)

/-! ## The whole pipeline (`create_banner`, source lines 50-172)

The filesystem, the clock and the font metrics are abstracted as an
explicit run environment; the observable outcome of a run is collected in
a result record. -/

/-- Ambient state of one run: presence of the background file, canvas
dimensions, per-item TIF presence and decodability, the font-metrics
width function, the `%m%d` timestamp and the working directory. -/
structure RunEnv where
  bg_exists : Bool
  canvasW : Nat
  canvasH : Nat
  tif_exists : String → Bool
  tif_decodes : String → Bool
  textWidth : String → Int
  mmdd : String
  cwd : String

/-- Observable outcome of a successful run. -/
structure BannerResult where
  spacer_draw_color : String
  caption_fill_color : String
  grid_cols : Nat
  grid_rows : Nat
  warnings : List String
  placed : List String
  caption_lines : List String
  out_format : String
  output_filename : String
  output_path : String
deriving DecidableEq, Repr

/-- The warning printed at source line 100 for a missing TIF file. -/
def missing_warning (item_number : String) : String :=
  "Warning: TIF file for item " ++ item_number ++ " not found. Skipping."

/-- One iteration of the item loop (source lines 96-122): a missing file
records a warning and skips the item; a failed decode skips silently
(line 105-106, the converter prints its own diagnostic); otherwise the
item is composited. -/
def item_step (env : RunEnv) (acc : List String × List String)
    (item_number : String) : List String × List String :=
  if env.tif_exists item_number = false then
    (acc.1 ++ [missing_warning item_number], acc.2)
  else if env.tif_decodes item_number = false then acc
  else (acc.1, acc.2 ++ [item_number])

/-- The item loop of source lines 96-122, folded over the item list. -/
def process_items (env : RunEnv) (item_numbers : List String) :
    List String × List String :=
  item_numbers.foldl (item_step env) ([], [])

/-- The pipeline `create_banner` (source lines 50-172).  Unknown event
codes and a missing background are fatal (lines 65-66, 74-75); otherwise
the run processes every item, wraps the caption against the width budget
`canvas.width - 40` (line 125), and produces a WEBP file whose name is
built at lines 163-166. -/
def create_banner (events : List (String × EventScheme)) (env : RunEnv)
    (item_numbers : List String) (caption : String) (event_code : String) :
    Except String BannerResult :=
  match events.lookup event_code with
  | none =>
    .error ("Invalid event code: " ++ event_code ++
      ". Please check your events.json file.")
  | some scheme =>
    if env.bg_exists = false then
      .error "Background image bg.png not found in the current directory."
    else
      let item_count := item_numbers.length
      let pi := process_items env item_numbers
      let max_caption_width : Int := (env.canvasW : Int) - 40
      let caption_hyphenated := pyReplace (pyLower caption) ' ' "-"
      let output_filename := "4sgm-" ++ event_full_name scheme ++
        "-wholesale-" ++ caption_hyphenated ++ "-" ++ env.mmdd ++ ".webp"
      .ok {
        spacer_draw_color := spacer_color scheme
        caption_fill_color := caption_color scheme
        grid_cols := cols item_count
        grid_rows := rows item_count
        warnings := pi.1
        placed := pi.2
        caption_lines := wrapLines env.textWidth max_caption_width caption
        out_format := "webp"
        output_filename := output_filename
        output_path := env.cwd ++ "/" ++ output_filename
      }

/-! ## Concrete fixtures used by witnesses and evaluations -/

/-- A concrete event scheme with distinct spacer and caption colors. -/
def vltn : EventScheme :=
  { full_name := "Valentine\x27s Day"
    spacer_color := some "red"
    caption_color := some "blue" }

/-- A one-entry event table. -/
def eventsJson : List (String × EventScheme) := [("VLTN", vltn)]

/-- A concrete run environment where every TIF exists and decodes, and
text width is 20 pixels per character. -/
def env0 : RunEnv :=
  { bg_exists := true
    canvasW := 1200
    canvasH := 628
    tif_exists := fun _ => true
    tif_decodes := fun _ => true
    textWidth := fun s => (s.length : Int) * 20
    mmdd := "1012"
    cwd := "." }

/-- A run environment identical to `env0` except that the TIF file of
item `222` is missing. -/
def envMissing : RunEnv :=
  { env0 with tif_exists := fun i => i != "222" }

/-! ## Helper lemmas on the Python string primitives -/

/-- A list of characters containing a non-whitespace character still
contains one after dropping leading whitespace. -/
theorem exists_mem_dropWhile (l : List Char)
    (h : ∃ c ∈ l, c.isWhitespace = false) :
    ∃ c ∈ l.dropWhile Char.isWhitespace, c.isWhitespace = false := by
  induction l with
  | nil => simp at h
  | cons a l ih =>
    rw [List.dropWhile_cons]
    by_cases ha : a.isWhitespace
    · rw [if_pos ha]
      apply ih
      obtain ⟨c, hc, hw⟩ := h
      rcases List.mem_cons.mp hc with rfl | hc
      · rw [ha] at hw; cases hw
      · exact ⟨c, hc, hw⟩
    · rw [if_neg ha]
      exact ⟨a, List.mem_cons_self a l, by simpa using ha⟩

/-- Stripping a string that contains a non-whitespace character never
yields the empty string. -/
theorem pyStrip_ne_empty (s : String) (hc : ∃ c ∈ s.data, c.isWhitespace = false) :
    pyStrip s ≠ "" := by
  intro h
  have hdata : (((s.data.dropWhile Char.isWhitespace).reverse.dropWhile
      Char.isWhitespace).reverse) = [] := congrArg String.data h
  rw [List.reverse_eq_nil_iff, List.dropWhile_eq_nil_iff] at hdata
  obtain ⟨c, hc1, hc2⟩ := exists_mem_dropWhile s.data hc
  have := hdata c (List.mem_reverse.mpr hc1)
  rw [hc2] at this
  cases this

/-- Every word produced by the split pass is non-empty and contains no
whitespace, provided the accumulator already satisfies the invariant. -/
theorem pySplitAux_words (cs : List Char) :
    ∀ cur : List Char, (∀ c ∈ cur, c.isWhitespace = false) →
    ∀ w ∈ pySplitAux cs cur, w ≠ [] ∧ ∀ c ∈ w, c.isWhitespace = false := by
  induction cs with
  | nil =>
    intro cur hcur w hw
    unfold pySplitAux at hw
    split at hw
    · cases hw
    · next hne =>
      rw [List.mem_singleton] at hw
      subst hw
      refine ⟨?_, ?_⟩
      · rw [ne_eq, List.reverse_eq_nil_iff]
        intro h
        subst h
        simp at hne
      · intro c hcrev
        exact hcur c (List.mem_reverse.mp hcrev)
  | cons a cs ih =>
    intro cur hcur w hw
    unfold pySplitAux at hw
    split at hw
    · split at hw
      · exact ih [] (by simp) w hw
      · next hne =>
        rcases List.mem_cons.mp hw with rfl | hw
        · refine ⟨?_, ?_⟩
          · rw [ne_eq, List.reverse_eq_nil_iff]
            intro h
            subst h
            simp at hne
          · intro c hcc
            exact hcur c (List.mem_reverse.mp hcc)
        · exact ih [] (by simp) w hw
    · next ha =>
      refine ih (a :: cur) ?_ w hw
      intro c hc
      rcases List.mem_cons.mp hc with rfl | hc
      · simpa using ha
      · exact hcur c hc

/-- Every word of `pySplit` is non-empty and whitespace-free. -/
theorem pySplit_words (s : String) :
    ∀ w ∈ pySplit s, w.data ≠ [] ∧ ∀ c ∈ w.data, c.isWhitespace = false := by
  intro w hw
  unfold pySplit at hw
  obtain ⟨l, hl, rfl⟩ := List.mem_map.mp hw
  exact pySplitAux_words s.data [] (by simp) l hl

/-- The wrap loop never loses already-closed lines: with a non-empty
lines accumulator the result is non-empty. -/
theorem wrapGo_ne_nil_of_lines (f : String → Int) (m : Int) (ws : List String) :
    ∀ (lines : List String) (current : String), lines ≠ [] →
    wrapGo f m ws lines current ≠ [] := by
  induction ws with
  | nil =>
    intro lines current h
    unfold wrapGo
    split
    · exact h
    · simp
  | cons w ws ih =>
    intro lines current h
    unfold wrapGo
    split
    · exact ih lines _ h
    · exact ih (lines ++ [current]) w (by simp)

/-- With at least one word, all of them non-empty and whitespace-free,
the wrap loop produces at least one line. -/
theorem wrapGo_ne_nil (f : String → Int) (m : Int) (ws : List String) :
    ∀ (lines : List String) (current : String), ws ≠ [] →
    (∀ w ∈ ws, w.data ≠ [] ∧ ∀ c ∈ w.data, c.isWhitespace = false) →
    wrapGo f m ws lines current ≠ [] := by
  induction ws with
  | nil =>
    intro _ _ h _
    exact absurd rfl h
  | cons w ws ih =>
    intro lines current _ hws
    unfold wrapGo
    split
    · cases ws with
      | nil =>
        unfold wrapGo
        split
        · next htest =>
          exfalso
          obtain ⟨hwne, hwnws⟩ := hws w (List.mem_cons_self w [])
          obtain ⟨c0, hc0⟩ := List.exists_mem_of_ne_nil w.data hwne
          refine pyStrip_ne_empty (current ++ " " ++ w) ⟨c0, ?_, hwnws c0 hc0⟩ htest
          simp [String.data_append]
          exact Or.inr (Or.inr hc0)
        · simp
      | cons w' ws' =>
        exact ih lines _ (by simp) (fun x hx => hws x (List.mem_cons_of_mem w hx))
    · cases ws with
      | nil =>
        unfold wrapGo
        split
        · simp
        · simp
      | cons w' ws' =>
        exact ih (lines ++ [current]) w (by simp) (fun x hx => hws x (List.mem_cons_of_mem w hx))

/-- Soundness invariant of the wrap loop: every produced line either fits
the width budget, or is one of the words of the source set, or is the
empty string carried in from the initial accumulator. -/
theorem wrapGo_sound (f : String → Int) (m : Int) (S : List String) (ws : List String) :
    ∀ (lines : List String) (current : String),
    (∀ l ∈ lines, f l ≤ m ∨ l ∈ S ∨ l = "") →
    (current = "" ∨ f current ≤ m ∨ current ∈ S) →
    (∀ w ∈ ws, w ∈ S) →
    ∀ l ∈ wrapGo f m ws lines current, f l ≤ m ∨ l ∈ S ∨ l = "" := by
  induction ws with
  | nil =>
    intro lines current hlines hcur _ l hl
    unfold wrapGo at hl
    split at hl
    · exact hlines l hl
    · rcases List.mem_append.mp hl with h | h
      · exact hlines l h
      · rw [List.mem_singleton] at h
        subst h
        rcases hcur with h | h | h
        · exact Or.inr (Or.inr h)
        · exact Or.inl h
        · exact Or.inr (Or.inl h)
  | cons w ws ih =>
    intro lines current hlines hcur hws l hl
    unfold wrapGo at hl
    split at hl
    · next hle =>
      exact ih lines _ hlines (Or.inr (Or.inl hle))
        (fun x hx => hws x (List.mem_cons_of_mem w hx)) l hl
    · refine ih (lines ++ [current]) w ?_
        (Or.inr (Or.inr (hws w (List.mem_cons_self w ws))))
        (fun x hx => hws x (List.mem_cons_of_mem w hx)) l hl
      intro l' hl'
      rcases List.mem_append.mp hl' with h | h
      · exact hlines l' h
      · rw [List.mem_singleton] at h
        subst h
        rcases hcur with h | h | h
        · exact Or.inr (Or.inr h)
        · exact Or.inl h
        · exact Or.inr (Or.inl h)

/-- Unfolding the item loop: warnings collect exactly the missing items
(in order) and the placed list collects exactly the items that exist and
decode (in order). -/
theorem process_items_eq (env : RunEnv) (item_numbers : List String) :
    process_items env item_numbers =
      ((item_numbers.filter (fun i => !env.tif_exists i)).map missing_warning,
       item_numbers.filter (fun i => env.tif_exists i && env.tif_decodes i)) := by
  have key : ∀ (l : List String) (acc : List String × List String),
      l.foldl (item_step env) acc =
        (acc.1 ++ (l.filter (fun i => !env.tif_exists i)).map missing_warning,
         acc.2 ++ l.filter (fun i => env.tif_exists i && env.tif_decodes i)) := by
    intro l
    induction l with
    | nil => intro acc; simp
    | cons a l ih =>
      intro acc
      rw [List.foldl_cons, ih]
      unfold item_step
      by_cases h1 : env.tif_exists a
      · by_cases h2 : env.tif_decodes a
        · simp [h1, h2, List.filter_cons]
        · simp [h1, h2, List.filter_cons]
      · simp [h1, List.filter_cons]
  rw [process_items, key item_numbers ([], [])]
  simp

/-! ## Claim theorems -/

/-- C1 (code evaluation at the failing input): with the scheme of event
code VLTN declaring spacer color red and caption color blue, the pipeline
draws the spacer with blue and fills the caption with red — source lines
68-69 read the two JSON fields crosswise, so the claim that each field is
consumed by the element of the same name fails on the code. -/
theorem spacer_and_caption_colors_crossed :
    (create_banner eventsJson env0 ["111"] "Happy Day" "VLTN").toOption.map
        (fun r => (r.spacer_draw_color, r.caption_fill_color)) = some ("blue", "red") ∧
    vltn.spacer_color = some "red" ∧ vltn.caption_color = some "blue" ∧
    eventsJson.lookup "VLTN" = some vltn :=
  ⟨by decide, rfl, rfl, by decide⟩

/-- C2 (counterexample): for 100 items on a square 1000x1000 canvas the
spec-modelled estimate window is 8..12, but the code picks 2 columns,
outside the window — the code never performs the estimate-window search. -/
theorem grid_cols_outside_spec_window :
    cols 100 = 2 ∧
    spec_cols_window 100 1000 1000 = [8, 9, 10, 11, 12] ∧
    (2 : Nat) ∉ spec_cols_window 100 1000 1000 := by
  have hsqrt : Nat.sqrt 100 = 10 := by
    refine le_antisymm ?_ (Nat.le_sqrt.mpr (by norm_num))
    have h11 : Nat.sqrt 100 < 11 := Nat.sqrt_lt.mpr (by norm_num)
    omega
  have hest : spec_cols_estimate 100 1000 1000 = 10 := by
    unfold spec_cols_estimate
    norm_num [hsqrt]
  have hwin : spec_cols_window 100 1000 1000 = [8, 9, 10, 11, 12] := by
    unfold spec_cols_window
    simp only [hest]
    decide
  refine ⟨rfl, hwin, ?_⟩
  rw [hwin]
  decide

/-- C2 (amended): the column count ignores the canvas entirely; it is 1
for a single item and 2 for two or more items. -/
theorem grid_cols_constant_two (n : Nat) : cols (n + 2) = 2 ∧ cols 1 = 1 := by
  constructor
  · unfold cols
    exact if_pos (by omega)
  · rfl

/-- C3: for any item count at least 1 the grid has at least one column,
the row count is the ceiling of items over columns (characterised by
`cols * (rows - 1) < n ≤ cols * rows`), and one item forces one column. -/
theorem grid_cols_rows_ceil (n : Nat) (h : 1 ≤ n) :
    1 ≤ cols n ∧ n ≤ cols n * rows n ∧ cols n * (rows n - 1) < n ∧
    (n = 1 → cols n = 1) := by
  unfold rows cols
  split <;> omega

/-- Witness for C3 at five items. -/
theorem grid_cols_rows_ceil_witness :
    1 ≤ 5 ∧ (1 ≤ cols 5 ∧ 5 ≤ cols 5 * rows 5 ∧ cols 5 * (rows 5 - 1) < 5 ∧
      (5 = 1 → cols 5 = 1)) :=
  ⟨by decide, grid_cols_rows_ceil 5 (by decide)⟩

/-- C4 (counterexample): with the monotone width function constantly 5
and budget 3, the caption "a" wraps to an empty first line whose measured
width 5 exceeds the budget, and the empty line is not a word of the
caption — so not every overwide line is a single word. -/
theorem wrap_overwide_empty_line :
    WidthMonotone (fun _ => (5 : Int)) ∧
    wrapLines (fun _ => (5 : Int)) 3 "a" = ["", "a"] ∧
    ("" : String) ∈ wrapLines (fun _ => (5 : Int)) 3 "a" ∧
    ¬ ((5 : Int) ≤ 3) ∧
    ("" : String) ∉ pySplit "a" :=
  ⟨fun _ _ => le_refl 5, by decide, by decide, by decide, by decide⟩

/-- C4 (amended): every produced line fits the width budget, except a
line that is a single word of the caption exceeding the budget, or the
empty line flushed when the very first word already exceeds the budget
(in which case the measured width of the empty string may exceed it too);
no monotonicity assumption is needed. -/
theorem wrap_line_bound (f : String → Int) (m : Int) (caption : String) :
    ∀ l ∈ wrapLines f m caption,
      f l ≤ m ∨ (l ∈ pySplit caption ∧ m < f l) ∨ (l = "" ∧ m < f l) := by
  intro l hl
  have h := wrapGo_sound f m (pySplit caption) (pySplit caption) [] ""
    (by simp) (Or.inl rfl) (fun w hw => hw) l hl
  by_cases hfl : f l ≤ m
  · exact Or.inl hfl
  · have hlt : m < f l := lt_of_not_le hfl
    rcases h with h | h | h
    · exact Or.inl h
    · exact Or.inr (Or.inl ⟨h, hlt⟩)
    · exact Or.inr (Or.inr ⟨h, hlt⟩)

/-- Witness for C4 on a caption that fits on one line. -/
theorem wrap_line_bound_witness :
    ("Happy Day" : String) ∈ wrapLines (fun s => (s.length : Int) * 20) 1160 "Happy Day" ∧
    ((fun s => (s.length : Int) * 20) "Happy Day" ≤ 1160 ∨
      (("Happy Day" : String) ∈ pySplit "Happy Day" ∧ 1160 < (fun s => (s.length : Int) * 20) "Happy Day") ∨
      (("Happy Day" : String) = "" ∧ 1160 < (fun s => (s.length : Int) * 20) "Happy Day")) :=
  ⟨by decide, wrap_line_bound (fun s => (s.length : Int) * 20) 1160 "Happy Day" "Happy Day" (by decide)⟩

/-- C5 (counterexample): the empty caption splits into no words and the
wrap produces no lines at all, not at least one. -/
theorem wrap_empty_caption_no_lines :
    wrapLines (fun _ => (0 : Int)) 100 "" = [] ∧ pySplit "" = [] :=
  ⟨rfl, rfl⟩

/-- C5 (amended): whenever the caption contains at least one word, the
wrap produces at least one line. -/
theorem wrap_nonempty (f : String → Int) (m : Int) (caption : String)
    (h : pySplit caption ≠ []) : wrapLines f m caption ≠ [] :=
  wrapGo_ne_nil f m (pySplit caption) [] "" h (pySplit_words caption)

/-- Witness for C5 on a two-word caption. -/
theorem wrap_nonempty_witness :
    pySplit "hi there" ≠ [] ∧
    wrapLines (fun s => (s.length : Int)) 100 "hi there" ≠ [] :=
  ⟨by decide, wrap_nonempty (fun s => (s.length : Int)) 100 "hi there" (by decide)⟩

/-- C6 (counterexample): in a 100-wide cell a 50-wide image is placed at
horizontal offset 30 and vertical offset 35 (for a 100-high cell and
50-high image), not at the centered offset 25 the claim states. -/
theorem cell_offset_not_centered :
    (50 : Int) ≤ 100 ∧ x_offset 100 50 = 30 ∧ y_offset 100 50 = 35 ∧
    ((100 : Int) - 50) / 2 = 25 ∧ ¬ ((30 : Int) = 25) ∧ ¬ ((35 : Int) = 25) := by
  decide

/-- C6 (amended): the placement offsets are the centered offsets plus a
fixed padding bias of 5 pixels horizontally and 10 pixels vertically. -/
theorem cell_offset_bias (Wc Wi Hc Hi : Int) (_hx : Wi ≤ Wc) (_hy : Hi ≤ Hc) :
    x_offset Wc Wi = (Wc - Wi) / 2 + 5 ∧ y_offset Hc Hi = (Hc - Hi) / 2 + 10 := by
  unfold x_offset y_offset
  omega

/-- Witness for C6 at a 100x120 cell and a 50x50 image. -/
theorem cell_offset_bias_witness :
    (50 : Int) ≤ 100 ∧ (50 : Int) ≤ 120 ∧
    (x_offset 100 50 = (100 - 50) / 2 + 5 ∧ y_offset 120 50 = (120 - 50) / 2 + 10) :=
  ⟨by decide, by decide, cell_offset_bias 100 50 120 50 (by decide) (by decide)⟩

/-- C7: the modelled cell resize never enlarges either dimension and
preserves the aspect ratio (stated multiplicatively). -/
theorem transform_resize_shrinks (W H w h : ℚ) (hw : 0 < w) (hh : 0 < h) :
    (transform_resize W H w h).1 ≤ w ∧ (transform_resize W H w h).2 ≤ h ∧
    (transform_resize W H w h).1 * h = (transform_resize W H w h).2 * w := by
  unfold transform_resize
  split
  · exact ⟨le_refl w, le_refl h, mul_comm w h⟩
  · next hc =>
    have hs1 : min (W / w) (H / h) ≤ 1 := by
      rcases not_and_or.mp hc with hcw | hch
      · exact le_trans (min_le_left _ _) (le_of_lt ((div_lt_one hw).mpr (lt_of_not_le hcw)))
      · exact le_trans (min_le_right _ _) (le_of_lt ((div_lt_one hh).mpr (lt_of_not_le hch)))
    refine ⟨?_, ?_, by ring⟩
    · calc w * min (W / w) (H / h) ≤ w * 1 := mul_le_mul_of_nonneg_left hs1 hw.le
        _ = w := mul_one w
    · calc h * min (W / w) (H / h) ≤ h * 1 := mul_le_mul_of_nonneg_left hs1 hh.le
        _ = h := mul_one h

/-- Witness for C7: a 100x80 image in a 50x50 cell. -/
theorem transform_resize_shrinks_witness :
    (0 : ℚ) < 100 ∧ (0 : ℚ) < 80 ∧
    ((transform_resize 50 50 100 80).1 ≤ 100 ∧ (transform_resize 50 50 100 80).2 ≤ 80 ∧
      (transform_resize 50 50 100 80).1 * 80 = (transform_resize 50 50 100 80).2 * 100) :=
  ⟨by norm_num, by norm_num, transform_resize_shrinks 50 50 100 80 (by norm_num) (by norm_num)⟩

/-- C8: with a valid event code and an existing background, the run
always succeeds, warns exactly about the items whose TIF file is missing,
and composites exactly the items that exist and decode. -/
theorem create_banner_warns_and_continues
    (events : List (String × EventScheme)) (env : RunEnv)
    (item_numbers : List String) (caption : String) (event_code : String)
    (scheme : EventScheme)
    (hev : events.lookup event_code = some scheme)
    (hbg : env.bg_exists = true) :
    ∃ r : BannerResult,
      create_banner events env item_numbers caption event_code = .ok r ∧
      r.warnings = (item_numbers.filter (fun i => !env.tif_exists i)).map missing_warning ∧
      r.placed = item_numbers.filter (fun i => env.tif_exists i && env.tif_decodes i) := by
  unfold create_banner
  rw [hev, hbg]
  refine ⟨_, rfl, ?_, ?_⟩ <;> simp [process_items_eq]

/-- Witness for C8: item 222 of three is missing, the run still succeeds
with one warning and two placed items. -/
theorem create_banner_warns_and_continues_witness :
    eventsJson.lookup "VLTN" = some vltn ∧ envMissing.bg_exists = true ∧
    ∃ r : BannerResult,
      create_banner eventsJson envMissing ["111", "222", "333"] "Happy Day" "VLTN" = .ok r ∧
      r.warnings = ((["111", "222", "333"] : List String).filter
          (fun i => !envMissing.tif_exists i)).map missing_warning ∧
      r.placed = (["111", "222", "333"] : List String).filter
          (fun i => envMissing.tif_exists i && envMissing.tif_decodes i) :=
  ⟨by decide, rfl, create_banner_warns_and_continues eventsJson envMissing
      ["111", "222", "333"] "Happy Day" "VLTN" vltn (by decide) rfl⟩

/-- C9: with a valid event code and background, the output filename is
the fixed leading tag, the event display name lowercased with apostrophes
removed and spaces hyphenated, the caption lowercased with spaces
hyphenated, and the month-day stamp, with extension webp; the canvas
format is webp and the file goes to the working directory. -/
theorem create_banner_output_name
    (events : List (String × EventScheme)) (env : RunEnv)
    (item_numbers : List String) (caption : String) (event_code : String)
    (scheme : EventScheme)
    (hev : events.lookup event_code = some scheme)
    (hbg : env.bg_exists = true) :
    ∃ r : BannerResult,
      create_banner events env item_numbers caption event_code = .ok r ∧
      r.output_filename =
        "4sgm-" ++ pyReplace (pyReplace (pyLower scheme.full_name) '\x27' "") ' ' "-" ++
        "-wholesale-" ++ pyReplace (pyLower caption) ' ' "-" ++ "-" ++ env.mmdd ++ ".webp" ∧
      r.out_format = "webp" ∧
      r.output_path = env.cwd ++ "/" ++ r.output_filename := by
  unfold create_banner
  rw [hev, hbg]
  exact ⟨_, rfl, rfl, rfl, rfl⟩

/-- Witness for C9 with the VLTN scheme and caption Happy Day. -/
theorem create_banner_output_name_witness :
    eventsJson.lookup "VLTN" = some vltn ∧ env0.bg_exists = true ∧
    ∃ r : BannerResult,
      create_banner eventsJson env0 ["111"] "Happy Day" "VLTN" = .ok r ∧
      r.output_filename =
        "4sgm-" ++ pyReplace (pyReplace (pyLower vltn.full_name) '\x27' "") ' ' "-" ++
        "-wholesale-" ++ pyReplace (pyLower "Happy Day") ' ' "-" ++ "-" ++ env0.mmdd ++ ".webp" ∧
      r.out_format = "webp" ∧
      r.output_path = env0.cwd ++ "/" ++ r.output_filename :=
  ⟨by decide, rfl, create_banner_output_name eventsJson env0 ["111"] "Happy Day" "VLTN" vltn
      (by decide) rfl⟩

/-- C10: at least one item gives at least one grid row, so the divisor of
the per-cell height computation is non-zero; with zero items the row
count is zero, which in the source is a division by zero. -/
theorem rows_positive_no_div_zero (n : Nat) (h : 1 ≤ n) :
    1 ≤ rows n ∧ ¬ ((rows n : Int) = 0) ∧ rows 0 = 0 := by
  have h1 : 1 ≤ rows n := by
    unfold rows cols
    split <;> omega
  refine ⟨h1, ?_, by decide⟩
  intro hz
  omega

/-- Witness for C10 at three items. -/
theorem rows_positive_no_div_zero_witness :
    1 ≤ 3 ∧ (1 ≤ rows 3 ∧ ¬ ((rows 3 : Int) = 0) ∧ rows 0 = 0) :=
  ⟨by decide, rows_positive_no_div_zero 3 (by decide)⟩

end LandingBanner
